import Mathlib

/-!
# Verification of the CAPPS XML converter (`csv_to_capps_xml.py`)

A shallow embedding of the conversion and filtering pipeline of the
CAPPS XML converter: string normalization helpers mirroring the Python
`str` operations used by the source, the AIMsi timestamp parser
(`datetime.strptime` with format `"%m/%d/%Y %I:%M:%S %p"`), amount
parsing (`float` after stripping `$` and `,`), the brand extractor with
its persistent cache, the color extractor, the serials index builder,
and `process_purchase_row` / `convert_aimsi_to_xml`.

Modelling conventions:
* Python strings are `String`, manipulated through explicit `List Char`
  helpers so that every definition evaluates by kernel reduction.
* `datetime.now()` is a parameter: `now : Int` (epoch seconds) for the
  age computation and `nowIso : String` for the already-formatted
  fallback inside `parse_aimsi_datetime`.
* Python `float` amounts are modelled as exact decimal fractions
  (`PyNum`, an integer numerator over a power-of-ten denominator, with
  `PyNum.ltB_iff_toRat` relating the comparison to `Rat`); binary
  rounding, the literal forms `inf`/`nan` and underscore digit grouping
  accepted by Python's `float()` are outside the model.
* The remote inference call is a parameter `apiOracle : String → Option
  String` giving the (possibly failing) result of
  `extract_brand_with_api`; disk I/O (the cache file, the input CSVs)
  is modelled by explicit state/`Option` arguments.
-/

set_option maxHeartbeats 1000000

namespace Capps

/-! ### Characters and `List Char` helpers -/

/-- The double-quote character `"` (written by code point to keep string
literals simple). -/
def quoteChar : Char := Char.ofNat 34

/-- The apostrophe character `'`. -/
def aposChar : Char := Char.ofNat 39

/-- Uppercase every character (Python `str.upper` on the ASCII subset the
source data uses). -/
def upperList (cs : List Char) : List Char := cs.map Char.toUpper

def strUpper (s : String) : String := String.mk (upperList s.data)

/-- Drop leading whitespace. -/
def trimLead (cs : List Char) : List Char := cs.dropWhile Char.isWhitespace

/-- Python `str.strip()`: drop whitespace from both ends. -/
def trimList (cs : List Char) : List Char :=
  (trimLead (trimLead cs).reverse).reverse

def strTrim (s : String) : String := String.mk (trimList s.data)

/-- Python `str.strip(c)` for a single character: drop all copies of `c`
from both ends. -/
def stripCharEnds (c : Char) (cs : List Char) : List Char :=
  ((cs.dropWhile (· == c)).reverse.dropWhile (· == c)).reverse

/-- Python `str.strip('"')`. -/
def stripQuotesS (s : String) : String := String.mk (stripCharEnds quoteChar s.data)

/-- Python `str.replace(c, '')`: remove every occurrence of `c`. -/
def removeAllChar (c : Char) (s : String) : String :=
  String.mk (s.data.filter (fun x => x != c))

/-- Does `lead` agree with the first characters of the second list?
(Python `str.startswith`.) -/
def leadAgrees : List Char → List Char → Bool
  | [], _ => true
  | _ :: _, [] => false
  | a :: as, b :: bs => a == b && leadAgrees as bs

/-- Python `str.startswith`. -/
def strHasLead (s : String) (lead : String) : Bool := leadAgrees lead.data s.data

/-- Substring containment on character lists (Python `in` on `str`). -/
def seqContains (needle : List Char) : List Char → Bool
  | [] => leadAgrees needle []
  | c :: cs => leadAgrees needle (c :: cs) || seqContains needle cs

/-- Split on a separator character, keeping empty pieces
(Python `str.split('/')`-like behaviour for a single separator). -/
def splitOnCharAux (sep : Char) (cur : List Char) : List Char → List (List Char)
  | [] => [cur.reverse]
  | x :: xs =>
    if x == sep then cur.reverse :: splitOnCharAux sep [] xs
    else splitOnCharAux sep (x :: cur) xs

def splitOnChar (sep : Char) (cs : List Char) : List (List Char) :=
  splitOnCharAux sep [] cs

/-- Split on runs of whitespace, dropping empty pieces
(Python `str.split()` with no argument). -/
def wordsAux (cur : List Char) : List Char → List (List Char)
  | [] => if cur.isEmpty then [] else [cur.reverse]
  | x :: xs =>
    if x.isWhitespace then
      if cur.isEmpty then wordsAux [] xs else cur.reverse :: wordsAux [] xs
    else wordsAux (x :: cur) xs

def wordsList (cs : List Char) : List (List Char) := wordsAux [] cs

def allDigits (cs : List Char) : Bool := cs.all Char.isDigit

/-- Numeric value of a digit string. -/
def digitsVal (cs : List Char) : Nat :=
  cs.foldl (fun acc c => acc * 10 + (c.toNat - 48)) 0

/-! ### Association lists (Python `dict` with insertion order) -/

/-- Dictionary lookup (`d[k]` / `k in d`). -/
def lookupS {α : Type} : List (String × α) → String → Option α
  | [], _ => none
  | (k, v) :: rest, key => if k == key then some v else lookupS rest key

/-- Dictionary assignment `d[k] = v`: overwrite in place or append. -/
def insertS {α : Type} (key : String) (v : α) : List (String × α) → List (String × α)
  | [] => [(key, v)]
  | (k, w) :: rest =>
    if k == key then (key, v) :: rest else (k, w) :: insertS key v rest

/-! ### AIMsi timestamps

`datetime.strptime(s, "%m/%d/%Y %I:%M:%S %p")`, the epoch-seconds view
used for the age computation, and `strftime("%Y-%m-%dT%H:%M:%S")`. -/

structure AimsiDT where
  year : Nat
  month : Nat
  day : Nat
  /-- Hour, already converted to the 24-hour clock as `strptime` does. -/
  hour : Nat
  minute : Nat
  second : Nat
  deriving DecidableEq, Repr

def isLeapYear (y : Nat) : Bool :=
  y % 4 == 0 && (y % 100 != 0 || y % 400 == 0)

def daysInMonth (y m : Nat) : Nat :=
  if m == 2 then (if isLeapYear y then 29 else 28)
  else if m == 4 || m == 6 || m == 9 || m == 11 then 30
  else 31

/-- A numeric field of one or two digits with an inclusive range bound,
as the `strptime` regexes for `%m`, `%d`, `%I`, `%M`, `%S` accept. -/
def parse2dig (cs : List Char) (lo hi : Nat) : Option Nat :=
  if 1 ≤ cs.length && cs.length ≤ 2 && allDigits cs then
    let v := digitsVal cs
    if lo ≤ v && v ≤ hi then some v else none
  else none

/-- `%Y`: exactly four digits; `datetime` additionally requires
`year ≥ 1` (`MINYEAR`). -/
def parseYear (cs : List Char) : Option Nat :=
  if cs.length == 4 && allDigits cs then
    let v := digitsVal cs
    if 1 ≤ v then some v else none
  else none

/-- `%p`: `AM`/`PM`, case-insensitively; `true` means PM. -/
def parseAmPm (cs : List Char) : Option Bool :=
  let u := upperList cs
  if u = ['A', 'M'] then some false
  else if u = ['P', 'M'] then some true
  else none

/-- 12-hour to 24-hour conversion exactly as `strptime` does for
`%I` with `%p`. -/
def to24Hour (h12 : Nat) (pm : Bool) : Nat :=
  if pm then (if h12 == 12 then 12 else h12 + 12)
  else (if h12 == 12 then 0 else h12)

/-- `datetime.strptime(s, "%m/%d/%Y %I:%M:%S %p")`, including the
calendar-validity check performed by the `datetime` constructor.
Returns `none` where Python raises `ValueError`. -/
def parse_aimsi (s : String) : Option AimsiDT :=
  match wordsList s.data with
  | [datePart, timePart, ampmPart] =>
    match splitOnChar '/' datePart, splitOnChar ':' timePart with
    | [ms, ds, ys], [hs, mins, ss] =>
      match parse2dig ms 1 12, parse2dig ds 1 31, parseYear ys,
            parse2dig hs 1 12, parse2dig mins 0 59, parse2dig ss 0 59,
            parseAmPm ampmPart with
      | some m, some d, some y, some h12, some mi, some se, some pm =>
        if d ≤ daysInMonth y m then
          some ⟨y, m, d, to24Hour h12 pm, mi, se⟩
        else none
      | _, _, _, _, _, _, _ => none
    | _, _ => none
  | _ => none

/-- Days since the Unix epoch of a civil date (proleptic Gregorian). -/
def daysFromCivil (y m d : Nat) : Int :=
  let yAdj : Int := if m ≤ 2 then (y : Int) - 1 else (y : Int)
  let era : Int := Int.fdiv yAdj 400
  let yoe : Int := yAdj - era * 400
  let mp : Nat := (m + 9) % 12
  let doy : Nat := (153 * mp + 2) / 5 + (d - 1)
  let doe : Int := yoe * 365 + Int.fdiv yoe 4 - Int.fdiv yoe 100 + (doy : Int)
  era * 146097 + doe - 719468

/-- Epoch seconds of a parsed timestamp. -/
def toEpoch (dt : AimsiDT) : Int :=
  daysFromCivil dt.year dt.month dt.day * 86400
    + ((dt.hour * 3600 + dt.minute * 60 + dt.second : Nat) : Int)

/-- `(now - transaction_dt).days`: Python `timedelta.days` is the floor
of the difference measured in days. -/
def daysAgo (now : Int) (dt : AimsiDT) : Int :=
  Int.fdiv (now - toEpoch dt) 86400

def digitChar (n : Nat) : Char := Char.ofNat (48 + n % 10)

def pad2 (n : Nat) : List Char := [digitChar (n / 10), digitChar n]

def pad4 (n : Nat) : List Char :=
  [digitChar (n / 1000), digitChar (n / 100), digitChar (n / 10), digitChar n]

/-- `strftime("%Y-%m-%dT%H:%M:%S")`. -/
def isoFormat (dt : AimsiDT) : String :=
  String.mk (pad4 dt.year ++ '-' :: pad2 dt.month ++ '-' :: pad2 dt.day
    ++ 'T' :: pad2 dt.hour ++ ':' :: pad2 dt.minute ++ ':' :: pad2 dt.second)

/-- `CAPPSConverter.parse_aimsi_datetime`: reformat the AIMsi timestamp,
falling back to the formatted current time when parsing fails. -/
def parse_aimsi_datetime (s : String) (nowIso : String) : String :=
  match parse_aimsi (strTrim s) with
  | some dt => isoFormat dt
  | none => nowIso

/-! ### Amount parsing

`float(amount.replace('$', '').replace(',', '').strip())`. The parsed
value is an exact (unnormalized) decimal fraction: an integer numerator
over a power-of-ten denominator, so that every arithmetic step is plain
`Int`/`Nat` arithmetic and evaluates by kernel reduction. Python's
binary `float` rounding is not modelled; the only use the source makes
of the value is the one comparison against `min_cost`. -/

structure PyNum where
  num : Int
  den : Nat
  deriving DecidableEq, Repr

/-- The rational value of a parsed amount. -/
def PyNum.toRat (a : PyNum) : Rat := (a.num : Rat) / (a.den : Rat)

/-- The comparison `amount_value < self.min_cost`, by cross
multiplication (denominators produced by the parser are positive). -/
def PyNum.ltB (a b : PyNum) : Bool := a.num * (b.den : Int) < b.num * (a.den : Int)

/-- On fractions with positive denominators, `PyNum.ltB` is exactly the
comparison of the rational values. -/
theorem PyNum.ltB_iff_toRat {a b : PyNum} (ha : 0 < a.den) (hb : 0 < b.den) :
    a.ltB b = true ↔ a.toRat < b.toRat := by
  have ha' : (0 : Rat) < (a.den : Rat) := by exact_mod_cast ha
  have hb' : (0 : Rat) < (b.den : Rat) := by exact_mod_cast hb
  rw [PyNum.toRat, PyNum.toRat, div_lt_div_iff₀ ha' hb', PyNum.ltB,
    decide_eq_true_eq]
  constructor
  · intro h
    exact_mod_cast h
  · intro h
    exact_mod_cast h

def spanDigits : List Char → List Char × List Char
  | [] => ([], [])
  | c :: cs =>
    if c.isDigit then
      let (a, b) := spanDigits cs
      (c :: a, b)
    else ([], c :: cs)

/-- Apply a base-ten exponent to a fraction. -/
def applyExp (a : PyNum) (z : Int) : PyNum :=
  if 0 ≤ z then ⟨a.num * (10 ^ z.toNat : Nat), a.den⟩
  else ⟨a.num, a.den * 10 ^ (-z).toNat⟩

/-- Python `float()` on an already-stripped string: optional sign, a
mantissa with at least one digit, an optional exponent. -/
def parseAmountL (cs : List Char) : Option PyNum :=
  let signed : Int × List Char :=
    match cs with
    | '+' :: r => (1, r)
    | '-' :: r => (-1, r)
    | r => (1, r)
  let sgn := signed.1
  let afterSign := signed.2
  let ipSplit := spanDigits afterSign
  let ip := ipSplit.1
  let fracSplit : List Char × List Char :=
    match ipSplit.2 with
    | '.' :: r => spanDigits r
    | r => ([], r)
  let fp := fracSplit.1
  let rest := fracSplit.2
  if ip.isEmpty && fp.isEmpty then none
  else
    let mant : PyNum :=
      ⟨sgn * ((digitsVal ip * 10 ^ fp.length + digitsVal fp : Nat) : Int),
        10 ^ fp.length⟩
    match rest with
    | [] => some mant
    | e :: r =>
      if e == 'e' || e == 'E' then
        let esigned : Int × List Char :=
          match r with
          | '+' :: r2 => (1, r2)
          | '-' :: r2 => (-1, r2)
          | r2 => (1, r2)
        let edSplit := spanDigits esigned.2
        if edSplit.1.isEmpty || !edSplit.2.isEmpty then none
        else some (applyExp mant (esigned.1 * (digitsVal edSplit.1 : Int)))
      else none

def parseAmount (s : String) : Option PyNum := parseAmountL s.data

/-! ### Brand extractor (`BrandExtractor`) -/

/-- `"D'ADDARIO"` (the apostrophe is spelled by code point). -/
def dAddarioBrand : String := String.mk ('D' :: aposChar :: "ADDARIO".data)

/-- `"LEVY'S"`. -/
def levysBrand : String := String.mk ("LEVY".data ++ [aposChar, 'S'])

/-- `BrandExtractor.KNOWN_BRANDS`, in source order (duplicates kept). -/
def KNOWN_BRANDS : List String := [
  "FENDER", "GIBSON", "MARTIN", "TAYLOR", "YAMAHA", "EPIPHONE", "IBANEZ",
  "PRS", "GRETSCH", "RICKENBACKER", "GUILD", "WASHBURN", "DEAN", "JACKSON",
  "ESP", "SCHECTER", "CORT", "TAKAMINE", "OVATION", "SEAGULL", "BREEDLOVE",
  "JAY TURSER", "SQUIER", "MITCHELL", "OSCAR SCHMIDT", "LUNA", "ALVAREZ",
  "GODIN", "PARKER", "MUSIC MAN", "STERLING", "CHAPMAN", "SOLAR", "HARLEY BENTON",
  "ROLAND", "KORG", "CASIO", "KAWAI", "NORD", "KURZWEIL", "ALESIS",
  "AKAI", "NOVATION", "ARTURIA", "NATIVE INSTRUMENTS", "MOOG", "SEQUENTIAL",
  "DAVE SMITH", "BEHRINGER", "STEINWAY", "BALDWIN", "WURLITZER",
  "PEARL", "TAMA", "LUDWIG", "DW", "GRETSCH", "ZILDJIAN", "SABIAN",
  "PAISTE", "MEINL", "EVANS", "REMO", "MAPEX", "SONOR", "PACIFIC",
  "SIMMONS", "ALESIS", "ROLAND", "GIBRALTAR", "TOCA", "LP", "LATIN PERCUSSION",
  "MARSHALL", "VOX", "FENDER", "ORANGE", "MESA", "MESA BOOGIE", "PEAVEY",
  "LINE 6", "BOSS", "SHURE", "SENNHEISER", "AKG", "AUDIO-TECHNICA",
  "BLUE", "RODE", "NEUMANN", "MXL", "MACKIE", "PRESONUS", "FOCUSRITE",
  "BEHRINGER", "QSC", "JBL", "YAMAHA", "TASCAM", "ZOOM", "BLACKSTAR",
  "SELMER", "BUFFET", "JUPITER", "MENDINI", "JEAN PAUL", "BUNDY",
  "ARMSTRONG", "GEMEINHARDT", "BACH", "CONN", "KING", "HOLTON", "GETZEN",
  "DUNLOP", "ERNIE BALL", "DADDARIO", dAddarioBrand, "ELIXIR", "GHS",
  levysBrand, "HERCULES", "ON-STAGE", "SKB", "GATOR", "HARDCASE", "MONO",
  "KALA", "CORDOBA", "HOHNER", "SUZUKI", "TRAYNOR", "RANDALL", "CRATE"]

/-- A regex `\w` character (the source data is ASCII). -/
def isWordChar (c : Char) : Bool := c.isAlphanum || c == '_'

/-- Case-insensitive anchored match of an (uppercase) pattern against
the head of the text; on success returns the remaining text. -/
def matchSeqCI : List Char → List Char → Option (List Char)
  | [], rest => some rest
  | _ :: _, [] => none
  | b :: bs, c :: cs => if b == Char.toUpper c then matchSeqCI bs cs else none

/-- Is the character after a match a word boundary? -/
def boundaryAfter : List Char → Bool
  | [] => true
  | c :: _ => !isWordChar c

/-- `re.search` for the pattern `\b<brand>\b` with `re.IGNORECASE`:
scan every position, requiring a non-word character (or the text edge)
on both sides.  Every `KNOWN_BRANDS` entry begins and ends with a word
character, so `\b` amounts to exactly these side conditions. -/
def wwSearchAux (brand : List Char) : Bool → List Char → Bool
  | _, [] => false
  | prevWord, c :: cs =>
    (!prevWord &&
      (match matchSeqCI brand (c :: cs) with
       | some rest => boundaryAfter rest
       | none => false))
    || wwSearchAux brand (isWordChar c) cs

def wwSearch (brand : String) (text : String) : Bool :=
  wwSearchAux brand.data false text.data

/-- `prefixes_to_skip` in `extract_brand_with_patterns`. -/
def skipDescriptors : List String :=
  ["BROKEN", "USED", "NEW", "VINTAGE", "ANTIQUE", "ELECTRIC",
   "ACOUSTIC", "CLASSICAL", "DIGITAL", "ANALOG", "PORTABLE"]

/-- The small-word stoplist `['THE', 'AND', 'WITH', 'FOR']`. -/
def smallWords : List String := ["THE", "AND", "WITH", "FOR"]

/-- The model-indicator substrings. -/
def modelIndicators : List String :=
  ["PAUL", "STANDARD", "CUSTOM", "SPECIAL", "DELUXE", "SERIES", "MODEL"]

/-- Python `str.isalnum`: nonempty and all alphanumeric. -/
def isalnumL (cs : List Char) : Bool := !cs.isEmpty && cs.all Char.isAlphanum

/-- The token scan at the end of `extract_brand_with_patterns`: skip
descriptor prefixes, then return the first sufficiently long
non-stoplist token that is either followed by a model indicator or is
alphanumeric after dropping hyphens and apostrophes. -/
def heurScan : List (List Char) → Option (List Char)
  | [] => none
  | w :: rest =>
    let wu := upperList w
    if skipDescriptors.any (fun s => s.data == wu) then heurScan rest
    else if decide (2 < w.length) && !(smallWords.any (fun s => s.data == wu)) then
      let indicatorHit : Bool :=
        match rest with
        | [] => false
        | nw :: _ => modelIndicators.any (fun x => seqContains x.data (upperList nw))
      if indicatorHit then some wu
      else if isalnumL (wu.filter (fun c => c != '-' && c != aposChar)) then some wu
      else heurScan rest
    else heurScan rest

/-- `BrandExtractor.extract_brand_with_patterns`. -/
def extract_brand_with_patterns (description : String) : String :=
  match KNOWN_BRANDS.find? (fun b => wwSearch b description) with
  | some b => b
  | none =>
    match heurScan (wordsList description.data) with
    | some wu => String.mk wu
    | none => "UNKNOWN"

/-- The observable state of a `BrandExtractor`: the in-memory cache plus
counters for the side effects the claims talk about (`save_cache` calls,
remote-inference calls, pattern-fallback calls). -/
structure BrandState where
  cache : List (String × String)
  flushes : Nat
  apiCalls : Nat
  patternCalls : Nat
  deriving DecidableEq, Repr

/-- The cache key `description.upper().strip()`. -/
def normalizeDesc (d : String) : String := strTrim (strUpper d)

/-- `BrandExtractor.extract_brand`.  `hasApiKey` models `self.api_key`
being set; `apiOracle` gives the result of `extract_brand_with_api`
(`none` for any failure).  Returns the brand and the updated state:
a flush (`save_cache`) happens exactly on the cache-miss path. -/
def extract_brand (st : BrandState) (hasApiKey : Bool)
    (apiOracle : String → Option String) (description : String) :
    String × BrandState :=
  if description == "" then ("UNKNOWN", st)
  else
    let cacheKey := normalizeDesc description
    match lookupS st.cache cacheKey with
    | some b => (b, st)
    | none =>
      let apiStep : Option String × BrandState :=
        if hasApiKey then
          (apiOracle description, { st with apiCalls := st.apiCalls + 1 })
        else (none, st)
      let brandOpt : Option String :=
        match apiStep.1 with
        | some b => if b == "" then none else some b
        | none => none
      let pick : String × BrandState :=
        match brandOpt with
        | some b => (b, apiStep.2)
        | none =>
          (extract_brand_with_patterns description,
            { apiStep.2 with patternCalls := apiStep.2.patternCalls + 1 })
      (pick.1,
        { pick.2 with
            cache := insertS cacheKey pick.1 pick.2.cache
            flushes := pick.2.flushes + 1 })

/-! ### Converter configuration (`CAPPSConverter.__init__` arguments) -/

structure Config where
  license_number : String
  min_cost : PyNum
  days_lookback : Int
  include_isi_serials : Bool

/-! ### Category classifier (`CAPPSConverter.category_map`) -/

/-- The nested `category_map`, as an insertion-ordered association
list of association lists. -/
def category_map : List (String × List (String × String)) := [
  ("1", [("1", "ACCORDION"), ("2", "FLUTE"), ("3", "CLARINET"),
    ("4", "INSTRUMENT"), ("7", "HORN"), ("8", "TRUMPET"),
    ("9", "INSTRUMENT"), ("14", "VIOLIN"), ("27", "MUSICAL ACCESSORY"),
    ("28", "MUSICAL ACCESSORY"), ("29", "MUSICAL ACCESSORY"),
    ("31", "MUSICAL ACCESSORY")]),
  ("2", [("1", "FOOT PEDAL- AUDIO EQUIPMENT")]),
  ("3", [("1", "GUITAR"), ("3", "GUITAR"), ("4", "BASS"),
    ("6", "MUSICAL ACCESSORY"), ("7", "MUSICAL ACCESSORY"),
    ("10", "BANJO"), ("11", "MUSICAL ACCESSORY"),
    ("19", "MUSICAL ACCESSORY"), ("20", "MUSICAL ACCESSORY")]),
  ("4", [("1", "AMPLIFIER"), ("2", "AMPLIFIER"), ("3", "AMPLIFIER"),
    ("4", "AMPLIFIER"), ("5", "AMPLIFIER"), ("6", "AMPLIFIER"),
    ("19", "PREAMPLIFIER"), ("20", "MUSICAL ACCESSORY")]),
  ("5", [("1", "DRUM"), ("2", "CYMBAL"), ("3", "DRUM"), ("4", "DRUM"),
    ("5", "DRUM"), ("6", "MUSICAL ACCESSORY"), ("7", "DRUM"),
    ("10", "DRUM"), ("20", "MUSICAL ACCESSORY"),
    ("21", "MUSICAL ACCESSORY"), ("22", "MUSICAL ACCESSORY")]),
  ("6", [("1", "INSTRUMENT"), ("2", "INSTRUMENT")]),
  ("7", [("1", "SOUND EQUIPMENT"), ("3", "SOUND EQUIPMENT"),
    ("4", "AMPLIFIER"), ("5", "SOUND EQUIPMENT"), ("8", "SOUND EQUIPMENT"),
    ("9", "SOUND EQUIPMENT"), ("10", "SOUND EQUIPMENT"),
    ("11", "MUSICAL ACCESSORY"), ("12", "RECORDING EQUIPMENT"),
    ("13", "SOUND EQUIPMENT"), ("20", "MUSICAL ACCESSORY")]),
  ("9", [("1", "KEYBOARD"), ("2", "DRUM MACHINE"), ("3", "AMPLIFIER"),
    ("6", "MODULE"), ("20", "MUSICAL ACCESSORY")]),
  ("10", [("1", "MUSICAL ACCESSORY")]),
  ("12", [("1", "MUSICAL ACCESSORY"), ("2", "MUSICAL ACCESSORY"),
    ("3", "MUSICAL ACCESSORY"), ("4", "MUSICAL ACCESSORY"),
    ("5", "MUSICAL ACCESSORY"), ("6", "MUSICAL ACCESSORY"),
    ("7", "MUSICAL ACCESSORY"), ("8", "MUSICAL ACCESSORY"),
    ("9", "METRONOME"), ("10", "MUSICAL ACCESSORY"),
    ("11", "MUSICAL ACCESSORY"), ("12", "AMPLIFIER"),
    ("13", "MUSICAL ACCESSORY"), ("14", "MUSICAL ACCESSORY")]),
  ("22", [("1", "MUSICAL ACCESSORY"), ("2", "MUSICAL ACCESSORY"),
    ("3", "MUSICAL ACCESSORY")]),
  ("24", [("1", "MUSICAL ACCESSORY"), ("2", "MUSICAL ACCESSORY"),
    ("3", "MUSICAL ACCESSORY"), ("4", "MUSICAL ACCESSORY")]),
  ("25", [("1", "MUSICAL ACCESSORY"), ("2", "MUSICAL ACCESSORY"),
    ("3", "MUSICAL ACCESSORY")]),
  ("26", [("1", "MUSICAL ACCESSORY"), ("2", "MUSICAL ACCESSORY"),
    ("3", "MUSICAL ACCESSORY"), ("4", "MUSICAL ACCESSORY"),
    ("5", "MUSICAL ACCESSORY")])]

/-- `self.category_map.get(category_id, {}).get(subcategory_id, 'INSTRUMENT')`. -/
def classifyArticle (category_id subcategory_id : String) : String :=
  match lookupS category_map category_id with
  | some sub => (lookupS sub subcategory_id).getD "INSTRUMENT"
  | none => "INSTRUMENT"

/-! ### Color extractor (`CAPPSConverter.color_map` / `get_color`) -/

/-- `color_map`, in source insertion order (the iteration order of the
Python dict). -/
def color_map : List (String × String) := [
  ("BLACK", "BLACK"), ("WHITE", "WHITE"), ("RED", "RED"), ("BLUE", "BLUE"),
  ("GREEN", "GREEN"), ("YELLOW", "YELLOW"), ("ORANGE", "ORANGE"), ("PURPLE", "PURPLE"),
  ("BROWN", "BROWN"), ("GRAY", "GRAY"), ("GREY", "GRAY"), ("PINK", "PINK"),
  ("SILVER", "SILVER"), ("GOLD", "GOLD"), ("TAN", "TAN"), ("BEIGE", "TAN"),
  ("CREAM", "WHITE"), ("IVORY", "WHITE"), ("NATURAL", "BROWN"),
  ("SUNBURST", "BROWN"), ("TOBACCO", "BROWN"), ("CHERRY", "RED"),
  ("WINE", "RED"), ("BURGUNDY", "RED"), ("CRIMSON", "RED"),
  ("NAVY", "BLUE"), ("TEAL", "BLUE"), ("TURQUOISE", "BLUE"),
  ("VIOLET", "PURPLE"), ("LAVENDER", "PURPLE"),
  ("CHARCOAL", "GRAY"), ("SLATE", "GRAY"),
  ("AMBER", "ORANGE"), ("COPPER", "ORANGE")]

/-- `' ' + color_name + ' ' in ' ' + description.upper() + ' '`: the
synonym is found only when delimited by spaces (or the padded ends). -/
def spaceDelimMatch (colorName : String) (description : String) : Bool :=
  seqContains (' ' :: colorName.data ++ [' '])
    (' ' :: upperList description.data ++ [' '])

/-- `CAPPSConverter.get_color`. -/
def get_color (description : String) : String :=
  match color_map.find? (fun p => spaceDelimMatch p.1 description) with
  | some p => p.2
  | none => "Other"

/-! ### Serials index builder (`CAPPSConverter.load_serials_data`) -/

structure SerialInfo where
  description : String
  subcategory : String
  deriving DecidableEq, Repr

/-- The serials index.  Insertion order with overwrite mirrors the
Python dict (last row with a given serial wins). -/
abbrev SerialsData := List (String × SerialInfo)

/-- `load_serials_data`: `none` models an unopenable file, in which
case the `except` clause leaves the dictionary empty and the run
continues. -/
def load_serials_data : Option (List (List String)) → SerialsData
  | none => []
  | some rows =>
    rows.foldl (fun acc row =>
      if 11 ≤ row.length then
        let serial := strTrim (row.getD 1 "")
        let description := strTrim (row.getD 6 "")
        let subcategory := strTrim (row.getD 10 "")
        if serial != "" then insertS serial ⟨description, subcategory⟩ acc
        else acc
      else acc) []

/-! ### Purchase row filter and transformer
(`CAPPSConverter.process_purchase_row`) -/

/-- The distinct rejection causes of `process_purchase_row`, one per
`return False` site (each site has its own diagnostic). -/
inductive Reason
  | incompleteRow
  | tooOld
  /-- The future-dated case, logged with its own warning message. -/
  | futureDated
  | badDate
  | badAmount
  | belowMinCost
  | isiExcluded
  | serialMiss
  | emptyDescription
  deriving DecidableEq, Repr

inductive RowOutcome
  | rejected (r : Reason)
  | accepted
  deriving DecidableEq, Repr

/-- The `propertyTransaction` element built for an accepted row: one
field per XML child written by the source, in source order. -/
structure PropertyTransaction where
  transactionTime : String
  employeeName : String
  txType : String
  loanBuyNumber : String
  amount : String
  article : String
  brand : String
  model : String
  serialNumber : Option String
  description : String
  inscription : String
  ownerAppliedNumber : String
  pattern : String
  color : String
  material : String
  itemSize : String
  sizeUnit : String
  deriving DecidableEq, Repr

/-- `row[0]`. -/
def dateField (row : List String) : String := row.getD 0 ""

/-- `row[1].strip().strip('"')`. -/
def transactionField (row : List String) : String :=
  stripQuotesS (strTrim (row.getD 1 ""))

/-- `row[2].strip()`. -/
def amountField (row : List String) : String := strTrim (row.getD 2 "")

/-- `row[3].strip()`. -/
def categoryField (row : List String) : String := strTrim (row.getD 3 "")

/-- `row[4].strip().strip('"')`. -/
def serialField (row : List String) : String :=
  stripQuotesS (strTrim (row.getD 4 ""))

/-- `amount.replace('$', '').replace(',', '').strip()`. -/
def cleanedAmount (row : List String) : String :=
  strTrim (removeAllChar ',' (removeAllChar '$' (amountField row)))

/-- `CAPPSConverter.process_purchase_row`.  `now` is the epoch-seconds
value of `datetime.now()`; `nowIso` is the already-formatted fallback
used by `parse_aimsi_datetime`; the brand extractor's state is threaded
explicitly.  Returns the outcome, the updated `bulk_data` children and
the updated brand state. -/
def process_purchase_row (cfg : Config) (now : Int) (nowIso : String)
    (hasApiKey : Bool) (apiOracle : String → Option String)
    (employee_name transaction_type : String)
    (row : List String) (serials_data : SerialsData)
    (bulk_data : List PropertyTransaction) (bs : BrandState) :
    RowOutcome × List PropertyTransaction × BrandState :=
  if row.length < 5 then (.rejected .incompleteRow, bulk_data, bs)
  else
    match parse_aimsi (strTrim (dateField row)) with
    | none => (.rejected .badDate, bulk_data, bs)
    | some transaction_dt =>
      if cfg.days_lookback < daysAgo now transaction_dt then
        (.rejected .tooOld, bulk_data, bs)
      else if daysAgo now transaction_dt < 0 then
        (.rejected .futureDated, bulk_data, bs)
      else
        match parseAmount (cleanedAmount row) with
        | none => (.rejected .badAmount, bulk_data, bs)
        | some amount_value =>
          if amount_value.ltB cfg.min_cost then
            (.rejected .belowMinCost, bulk_data, bs)
          else
            let serial_number := serialField row
            if !cfg.include_isi_serials && serial_number != "" &&
                strHasLead (strUpper serial_number) "ISI" then
              (.rejected .isiExcluded, bulk_data, bs)
            else if serial_number == "" then
              (.rejected .serialMiss, bulk_data, bs)
            else
              match lookupS serials_data serial_number with
              | none => (.rejected .serialMiss, bulk_data, bs)
              | some serial_info =>
                let description := strTrim serial_info.description
                if description == "" then
                  (.rejected .emptyDescription, bulk_data, bs)
                else
                  let transaction_time := parse_aimsi_datetime (dateField row) nowIso
                  let brandStep := extract_brand bs hasApiKey apiOracle description
                  let article := classifyArticle (categoryField row) serial_info.subcategory
                  let tx : PropertyTransaction := {
                    transactionTime := transaction_time
                    employeeName := employee_name
                    txType := transaction_type
                    loanBuyNumber := transactionField row
                    amount := amountField row
                    article := article
                    brand := brandStep.1
                    model := description
                    serialNumber :=
                      if serial_number != "" && serial_number != "0" then
                        some serial_number
                      else none
                    description := description
                    inscription := "None"
                    ownerAppliedNumber := "None"
                    pattern := "None"
                    color := get_color description
                    material := "Unknown"
                    itemSize := "Unknown"
                    sizeUnit := "Unknown" }
                  (.accepted, bulk_data ++ [tx], brandStep.2)

/-! ### Whole-run conversion (`CAPPSConverter.convert_aimsi_to_xml`) -/

structure ConvertResult where
  licenseNumber : String
  transactions : List PropertyTransaction
  processedCount : Nat
  filteredCount : Nat
  skippedCount : Nat
  brandState : BrandState
  deriving DecidableEq, Repr

/-- One step of the row loop in `convert_aimsi_to_xml`. -/
def convertStep (cfg : Config) (now : Int) (nowIso : String)
    (hasApiKey : Bool) (apiOracle : String → Option String)
    (employeeName : String) (serials_data : SerialsData)
    (acc : List PropertyTransaction × BrandState × Nat × Nat × Nat)
    (row : List String) :
    List PropertyTransaction × BrandState × Nat × Nat × Nat :=
  let (bulk, st, processed, filtered, skipped) := acc
  if 5 ≤ row.length then
    match process_purchase_row cfg now nowIso hasApiKey apiOracle
        employeeName "BUY" row serials_data bulk st with
    | (.accepted, bulk2, st2) => (bulk2, st2, processed + 1, filtered, skipped)
    | (.rejected _, bulk2, st2) => (bulk2, st2, processed, filtered + 1, skipped)
  else (bulk, st, processed, filtered, skipped + 1)

/-- `CAPPSConverter.convert_aimsi_to_xml`.  File contents are `Option`
values: `none` models a file that cannot be opened.  An unopenable
serials file is absorbed by `load_serials_data` (empty index, run
continues); an unopenable purchases file raises out of the function,
surfaced to the caller as an error naming the file. -/
def convert_aimsi_to_xml (cfg : Config) (now : Int) (nowIso : String)
    (hasApiKey : Bool) (apiOracle : String → Option String) (bs : BrandState)
    (purchasesFileName : String)
    (purchasesFile serialsFile : Option (List (List String)))
    (employeeName : String) : Except String ConvertResult :=
  let serials_data := load_serials_data serialsFile
  match purchasesFile with
  | none => .error ("No such file or directory: " ++ purchasesFileName)
  | some rows =>
    let final := rows.foldl
      (convertStep cfg now nowIso hasApiKey apiOracle employeeName serials_data)
      ([], bs, 0, 0, 0)
    .ok {
      licenseNumber := cfg.license_number
      transactions := final.1
      processedCount := final.2.2.1
      filteredCount := final.2.2.2.1
      skippedCount := final.2.2.2.2
      brandState := final.2.1 }

/-! ### Shared lemmas -/

theorem lookupS_insertS_self {α : Type} (k : String) (v : α)
    (l : List (String × α)) : lookupS (insertS k v l) k = some v := by
  induction l with
  | nil => simp [insertS, lookupS]
  | cons p rest ih =>
    rw [insertS]
    split
    · rw [lookupS, if_pos (by simp)]
    · rw [lookupS]
      split
      · next hpk =>
        next hne => exact absurd hpk hne
      · exact ih

/-- A serial whose uppercase form starts with `"ISI"` is nonempty. -/
theorem isiSerial_ne_empty (s : String)
    (h : strHasLead (strUpper s) "ISI" = true) : (s != "") = true := by
  obtain ⟨data⟩ := s
  cases data with
  | nil => exact absurd h (by decide)
  | cons c cs => rfl

/-! ### Shared concrete sample inputs (used by witnesses) -/

def sampleCfg : Config := ⟨"LIC123", ⟨100, 1⟩, 5, false⟩

def sampleCfgIsi : Config := ⟨"LIC123", ⟨100, 1⟩, 5, true⟩

/-- Epoch seconds of 11/12/2025 00:00:00, a run time two days after the
sample rows' timestamps. -/
def sampleNow : Int := toEpoch ⟨2025, 11, 12, 0, 0, 0⟩

def sampleSerials : SerialsData := [("ABC123", ⟨"FENDER STRATOCASTER", "3"⟩)]

def sampleRow : List String :=
  ["11/10/2025 11:50:05 AM", "1001", "150.00", "3", "ABC123"]

def lowAmountRow : List String :=
  ["11/10/2025 11:50:05 AM", "1001", "50.00", "3", "ABC123"]

def isiRow : List String :=
  ["11/10/2025 11:50:05 AM", "1001", "150.00", "3", "ISI9999"]

def noOracle : String → Option String := fun _ => none

def emptyBrand : BrandState := ⟨[], 0, 0, 0⟩

/-! ### Claims -/

/-- C2: for a row whose timestamp parses, the age is the floor number of
whole days between the timestamp and the current time; age exactly
`days_lookback` passes the recency check (the outcome is never a
recency rejection), age `days_lookback + 1` is rejected as too old, and
a negative age is rejected with the distinct future-date warning
reason.  (`0 ≤ days_lookback` reflects the configured `daysLookback ≥ 1`.) -/
theorem claim_C2 (cfg : Config) (now : Int) (nowIso : String) (hak : Bool)
    (orc : String → Option String) (emp tt : String) (row : List String)
    (sd : SerialsData) (bulk : List PropertyTransaction) (bs : BrandState)
    (dt : AimsiDT)
    (hlen : 5 ≤ row.length)
    (hparse : parse_aimsi (strTrim (dateField row)) = some dt)
    (hlb : 0 ≤ cfg.days_lookback) :
    (daysAgo now dt = cfg.days_lookback →
      (process_purchase_row cfg now nowIso hak orc emp tt row sd bulk bs).1 ≠
          .rejected .tooOld ∧
        (process_purchase_row cfg now nowIso hak orc emp tt row sd bulk bs).1 ≠
          .rejected .futureDated ∧
        (process_purchase_row cfg now nowIso hak orc emp tt row sd bulk bs).1 ≠
          .rejected .badDate)
    ∧ (daysAgo now dt = cfg.days_lookback + 1 →
      (process_purchase_row cfg now nowIso hak orc emp tt row sd bulk bs).1 =
        .rejected .tooOld)
    ∧ (daysAgo now dt < 0 →
      (process_purchase_row cfg now nowIso hak orc emp tt row sd bulk bs).1 =
        .rejected .futureDated) := by
  refine ⟨fun h => ?_, fun h => ?_, fun h => ?_⟩
  · refine ⟨?_, ?_, ?_⟩ <;>
      (simp only [process_purchase_row, hparse]
       rw [if_neg (by omega), if_neg (by omega), if_neg (by omega)]
       repeat' split
       all_goals simp)
  · simp only [process_purchase_row, hparse]
    rw [if_neg (by omega), if_pos (by omega)]
  · simp only [process_purchase_row, hparse]
    rw [if_neg (by omega), if_neg (by omega), if_pos (by omega)]

/-- Witness for C2: with the run time five days after the sample row's
timestamp (age exactly `days_lookback = 5`), the outcome is not a
too-old rejection. -/
theorem claim_C2_witness :
    (process_purchase_row sampleCfg (toEpoch ⟨2025, 11, 15, 11, 50, 5⟩) ""
        false noOracle "Emp" "BUY" sampleRow sampleSerials [] emptyBrand).1 ≠
      .rejected .tooOld :=
  ((claim_C2 sampleCfg (toEpoch ⟨2025, 11, 15, 11, 50, 5⟩) "" false noOracle
    "Emp" "BUY" sampleRow sampleSerials [] emptyBrand ⟨2025, 11, 10, 11, 50, 5⟩
    (by decide) (by decide) (by decide)).1 (by decide)).1

/-- C1: with `include_isi_serials = false`, a row whose normalized serial
starts with `"ISI"` (case-insensitively) is never accepted; when such a
row reaches the serial checks (shape, recency and amount pass), the
rejection reason is the ISI exclusion — not a join miss — even though
the serial may be absent from the index; and with
`include_isi_serials = true` the same row with an otherwise-valid
serials-index entry is accepted. -/
theorem claim_C1 (cfg : Config) (now : Int) (nowIso : String) (hak : Bool)
    (orc : String → Option String) (emp tt : String) (row : List String)
    (sd : SerialsData) (bulk : List PropertyTransaction) (bs : BrandState) :
    (cfg.include_isi_serials = false →
      strHasLead (strUpper (serialField row)) "ISI" = true →
      (process_purchase_row cfg now nowIso hak orc emp tt row sd bulk bs).1 ≠
        .accepted)
    ∧ (∀ dt v, cfg.include_isi_serials = false →
      strHasLead (strUpper (serialField row)) "ISI" = true →
      5 ≤ row.length →
      parse_aimsi (strTrim (dateField row)) = some dt →
      daysAgo now dt ≤ cfg.days_lookback →
      0 ≤ daysAgo now dt →
      parseAmount (cleanedAmount row) = some v →
      v.ltB cfg.min_cost = false →
      (process_purchase_row cfg now nowIso hak orc emp tt row sd bulk bs).1 =
        .rejected .isiExcluded)
    ∧ (∀ dt v info, cfg.include_isi_serials = true →
      strHasLead (strUpper (serialField row)) "ISI" = true →
      5 ≤ row.length →
      parse_aimsi (strTrim (dateField row)) = some dt →
      daysAgo now dt ≤ cfg.days_lookback →
      0 ≤ daysAgo now dt →
      parseAmount (cleanedAmount row) = some v →
      v.ltB cfg.min_cost = false →
      lookupS sd (serialField row) = some info →
      strTrim info.description ≠ "" →
      (process_purchase_row cfg now nowIso hak orc emp tt row sd bulk bs).1 =
        .accepted) := by
  refine ⟨fun h1 h2 => ?_, fun dt v h1 h2 hlen hparse hage hfut hamt hmin => ?_,
    fun dt v info h1 h2 hlen hparse hage hfut hamt hmin hlook hdesc => ?_⟩
  · have hb : (!cfg.include_isi_serials && serialField row != "" &&
        strHasLead (strUpper (serialField row)) "ISI") = true := by
      rw [h1]
      simp [h2, isiSerial_ne_empty _ h2]
    simp only [process_purchase_row]
    repeat' split
    all_goals refine fun hc => absurd hc ?_
    all_goals simp [hb]
  · have hb : (!cfg.include_isi_serials && serialField row != "" &&
        strHasLead (strUpper (serialField row)) "ISI") = true := by
      rw [h1]
      simp [h2, isiSerial_ne_empty _ h2]
    simp only [process_purchase_row, hparse, hamt]
    rw [if_neg (by omega), if_neg (by omega), if_neg (by omega),
      if_neg (by simp [hmin]), if_pos hb]
  · have hserial : (serialField row != "") = true := isiSerial_ne_empty _ h2
    have hb : (!cfg.include_isi_serials && serialField row != "" &&
        strHasLead (strUpper (serialField row)) "ISI") = false := by
      rw [h1]
      rfl
    simp only [process_purchase_row, hparse, hamt, hlook]
    rw [if_neg (by omega), if_neg (by omega), if_neg (by omega),
      if_neg (by simp [hmin]), if_neg (by simp [hb]),
      if_neg (by simp_all), if_neg (by simp [hdesc])]

/-- Witness for C1: the ISI sample row (serial `"ISI9999"`, not in the
index) with `include_isi_serials = false` is rejected by the ISI
exclusion, not as a join miss. -/
theorem claim_C1_witness :
    (process_purchase_row sampleCfg sampleNow "" false noOracle "Emp" "BUY"
        isiRow sampleSerials [] emptyBrand).1 = .rejected .isiExcluded :=
  (claim_C1 sampleCfg sampleNow "" false noOracle "Emp" "BUY"
      isiRow sampleSerials [] emptyBrand).2.1
    ⟨2025, 11, 10, 11, 50, 5⟩ ⟨15000, 100⟩ (by decide) (by decide) (by decide)
    (by decide) (by decide) (by decide) (by decide) (by decide)

/-- C8: an accepted row's emitted `transactionTime` is the source
timestamp reformatted to `YYYY-MM-DDTHH:MM:SS`; acceptance guarantees
the timestamp parses, so `parse_aimsi_datetime`'s current-time fallback
is never taken (the result is independent of the fallback string). -/
theorem claim_C8 (cfg : Config) (now : Int) (nowIso : String) (hak : Bool)
    (orc : String → Option String) (emp tt : String) (row : List String)
    (sd : SerialsData) (bulk : List PropertyTransaction) (bs : BrandState)
    (hacc : (process_purchase_row cfg now nowIso hak orc emp tt row sd bulk bs).1 =
      .accepted) :
    ∃ dt tx,
      parse_aimsi (strTrim (dateField row)) = some dt ∧
      (process_purchase_row cfg now nowIso hak orc emp tt row sd bulk bs).2.1 =
        bulk ++ [tx] ∧
      tx.transactionTime = isoFormat dt ∧
      ∀ fb : String, parse_aimsi_datetime (dateField row) fb = isoFormat dt := by
  revert hacc
  simp only [process_purchase_row]
  repeat' split
  all_goals intro hacc
  all_goals try exact RowOutcome.noConfusion hacc
  all_goals
    refine ⟨_, _, (by assumption), rfl, by simp_all [parse_aimsi_datetime],
      fun fb => by simp_all [parse_aimsi_datetime]⟩

/-- Witness for C8: the accepted sample row carries
`transactionTime = "2025-11-10T11:50:05"`. -/
theorem claim_C8_witness :
    ∃ dt tx,
      parse_aimsi (strTrim (dateField sampleRow)) = some dt ∧
      (process_purchase_row sampleCfg sampleNow "" false noOracle "Emp" "BUY"
          sampleRow sampleSerials [] emptyBrand).2.1 = [] ++ [tx] ∧
      tx.transactionTime = isoFormat dt ∧
      ∀ fb : String, parse_aimsi_datetime (dateField sampleRow) fb = isoFormat dt :=
  claim_C8 sampleCfg sampleNow "" false noOracle "Emp" "BUY"
    sampleRow sampleSerials [] emptyBrand (by decide)

/-- C10: the `amount` text of an accepted row's emitted element is the
raw trimmed CSV amount field, currency decoration and all; the cleaned,
parsed value is used only for the `min_cost` comparison. -/
theorem claim_C10 (cfg : Config) (now : Int) (nowIso : String) (hak : Bool)
    (orc : String → Option String) (emp tt : String) (row : List String)
    (sd : SerialsData) (bulk : List PropertyTransaction) (bs : BrandState)
    (hacc : (process_purchase_row cfg now nowIso hak orc emp tt row sd bulk bs).1 =
      .accepted) :
    ∃ tx,
      (process_purchase_row cfg now nowIso hak orc emp tt row sd bulk bs).2.1 =
        bulk ++ [tx] ∧
      tx.amount = amountField row := by
  revert hacc
  simp only [process_purchase_row]
  repeat' split
  all_goals intro hacc
  all_goals try exact RowOutcome.noConfusion hacc
  all_goals exact ⟨_, rfl, rfl⟩

/-- Witness for C10: a row whose amount field is `" $1,234.56 "` is
accepted (the cleaned value 1234.56 clears `min_cost = 100`) and the
emitted amount text is the trimmed raw string `"$1,234.56"`. -/
theorem claim_C10_witness :
    (∃ tx,
      (process_purchase_row sampleCfg sampleNow "" false noOracle "Emp" "BUY"
          ["11/10/2025 11:50:05 AM", "1001", " $1,234.56 ", "3", "ABC123"]
          sampleSerials [] emptyBrand).2.1 = [] ++ [tx] ∧
      tx.amount = amountField
        ["11/10/2025 11:50:05 AM", "1001", " $1,234.56 ", "3", "ABC123"])
    ∧ amountField ["11/10/2025 11:50:05 AM", "1001", " $1,234.56 ", "3", "ABC123"] =
        String.mk ('$' :: "1,234.56".data) :=
  ⟨claim_C10 sampleCfg sampleNow "" false noOracle "Emp" "BUY"
      ["11/10/2025 11:50:05 AM", "1001", " $1,234.56 ", "3", "ABC123"]
      sampleSerials [] emptyBrand (by decide),
    by decide⟩

/-- C9: `process_purchase_row` is atomic with respect to the document
under construction: on any rejection the `bulk_data` children are
returned unchanged, and a `propertyTransaction` element is appended
exactly when every filter has passed. -/
theorem claim_C9 (cfg : Config) (now : Int) (nowIso : String) (hak : Bool)
    (orc : String → Option String) (emp tt : String) (row : List String)
    (sd : SerialsData) (bulk : List PropertyTransaction) (bs : BrandState) :
    (∀ r, (process_purchase_row cfg now nowIso hak orc emp tt row sd bulk bs).1 =
        .rejected r →
      (process_purchase_row cfg now nowIso hak orc emp tt row sd bulk bs).2.1 = bulk)
    ∧ ((process_purchase_row cfg now nowIso hak orc emp tt row sd bulk bs).1 =
        .accepted →
      ∃ tx, (process_purchase_row cfg now nowIso hak orc emp tt row sd bulk bs).2.1 =
        bulk ++ [tx]) := by
  simp only [process_purchase_row]
  repeat' split
  all_goals try exact ⟨fun r h => rfl, fun h => nomatch h⟩
  all_goals exact ⟨fun r h => by simp at h, fun h => ⟨_, rfl⟩⟩

/-- Witness for C9: on the below-minimum sample row the processor
rejects and leaves the document part untouched. -/
theorem claim_C9_witness :
    (process_purchase_row sampleCfg sampleNow "" false noOracle "Emp" "BUY"
        lowAmountRow sampleSerials [] emptyBrand).1 =
      .rejected .belowMinCost
    ∧ (process_purchase_row sampleCfg sampleNow "" false noOracle "Emp" "BUY"
        lowAmountRow sampleSerials [] emptyBrand).2.1 = [] :=
  ⟨by decide,
    (claim_C9 sampleCfg sampleNow "" false noOracle "Emp" "BUY"
      lowAmountRow sampleSerials [] emptyBrand).1 .belowMinCost (by decide)⟩

/-- C3: a purchase row whose cleaned amount parses below `min_cost` is
rejected whatever the other fields hold, and a row whose cleaned amount
does not parse at all is likewise rejected (the hypothesis covers both:
it is vacuous exactly when the parse fails). -/
theorem claim_C3 (cfg : Config) (now : Int) (nowIso : String) (hak : Bool)
    (orc : String → Option String) (emp tt : String) (row : List String)
    (sd : SerialsData) (bulk : List PropertyTransaction) (bs : BrandState)
    (hbelow : ∀ v, parseAmount (cleanedAmount row) = some v →
      v.ltB cfg.min_cost = true) :
    (process_purchase_row cfg now nowIso hak orc emp tt row sd bulk bs).1 ≠
      .accepted := by
  simp only [process_purchase_row]
  repeat' split
  all_goals try (refine fun hc => absurd hc ?_; simp)
  all_goals exact absurd (hbelow _ (by assumption)) (by assumption)

/-- Witness for C3: the sample row with amount `"50.00"` against
`min_cost = 100` is rejected. -/
theorem claim_C3_witness :
    (process_purchase_row sampleCfg sampleNow "" false noOracle "Emp" "BUY"
        lowAmountRow sampleSerials [] emptyBrand).1 ≠ .accepted :=
  claim_C3 sampleCfg sampleNow "" false noOracle "Emp" "BUY"
    lowAmountRow sampleSerials [] emptyBrand
    (by
      intro v hv
      have h5 : parseAmount (cleanedAmount lowAmountRow) = some ⟨5000, 100⟩ := by
        decide
      rw [h5] at hv
      cases hv
      decide)

/-- After any `extract_brand` call on a nonempty description, the
normalized description is cached and maps to the returned brand
(immediate on a hit; by the insert-then-flush step on a miss). -/
theorem extract_brand_caches (st : BrandState) (hak : Bool)
    (orc : String → Option String) (d : String) (hne : d ≠ "") :
    lookupS (extract_brand st hak orc d).2.cache (normalizeDesc d) =
      some (extract_brand st hak orc d).1 := by
  simp only [extract_brand]
  rw [if_neg (by simp [hne])]
  cases hl : lookupS st.cache (normalizeDesc d) with
  | some b => simp [hl]
  | none =>
    simp only [hl]
    repeat' split
    all_goals simp [lookupS_insertS_self]

/-- C4 counterexample: a cache hit returns without flushing.  Resolving
`"Fender Strat"` against a state whose cache already holds the
normalized key `"FENDER STRAT"` returns the cached brand, yet the flush
counter stays at zero — the claim that every resolution (in particular
a cache hit) flushes the cache to persistent storage is false. -/
theorem claim_C4_counterexample :
    (extract_brand ⟨[("FENDER STRAT", "FENDER")], 0, 0, 0⟩ false noOracle
        "Fender Strat").1 = "FENDER"
    ∧ (extract_brand ⟨[("FENDER STRAT", "FENDER")], 0, 0, 0⟩ false noOracle
        "Fender Strat").2 = ⟨[("FENDER STRAT", "FENDER")], 0, 0, 0⟩ := by
  decide

/-- C4 (amended): a cache-miss resolution of a nonempty description
updates the cache entry for the normalized description and flushes
exactly once before returning, while a cache hit returns the cached
brand with no cache update and no flush. -/
theorem claim_C4 (st : BrandState) (hak : Bool)
    (orc : String → Option String) (d : String) :
    (d ≠ "" → lookupS st.cache (normalizeDesc d) = none →
      lookupS (extract_brand st hak orc d).2.cache (normalizeDesc d) =
          some (extract_brand st hak orc d).1
        ∧ (extract_brand st hak orc d).2.flushes = st.flushes + 1)
    ∧ (∀ b, lookupS st.cache (normalizeDesc d) = some b → d ≠ "" →
      extract_brand st hak orc d = (b, st)) := by
  constructor
  · intro hne hmiss
    refine ⟨extract_brand_caches st hak orc d hne, ?_⟩
    simp only [extract_brand]
    rw [if_neg (by simp [hne])]
    simp only [hmiss]
    repeat' split
    all_goals simp
  · intro b hhit hne
    simp only [extract_brand, hhit]
    rw [if_neg (by simp [hne])]

/-- Witness for C4 (amended): resolving `"Fender Strat"` against an
empty cache stores `("FENDER STRAT", "FENDER")` and flushes once. -/
theorem claim_C4_witness :
    lookupS (extract_brand emptyBrand false noOracle "Fender Strat").2.cache
        (normalizeDesc "Fender Strat") =
      some (extract_brand emptyBrand false noOracle "Fender Strat").1
    ∧ (extract_brand emptyBrand false noOracle "Fender Strat").2.flushes =
      emptyBrand.flushes + 1 :=
  (claim_C4 emptyBrand false noOracle "Fender Strat").1 (by decide) (by decide)

/-- C7 counterexample: two resolutions with the same normalized
description (`" "` and `""` both normalize to `""`) can return
different brands — the first call caches an inference result under the
key `""`, but the second call short-circuits on the emptiness guard
before ever reaching the cache and returns the `"UNKNOWN"` sentinel. -/
theorem claim_C7_counterexample :
    normalizeDesc " " = normalizeDesc ""
    ∧ (extract_brand emptyBrand true (fun _ => some "GIBSON") " ").1 = "GIBSON"
    ∧ (extract_brand
          (extract_brand emptyBrand true (fun _ => some "GIBSON") " ").2
          true (fun _ => some "GIBSON") "").1 = "UNKNOWN" := by
  decide

/-- C7 (amended): for nonempty descriptions with the same normalized
(upper-cased, trimmed) form, a second resolution returns the identical
brand, the normalized key is in the cache after the first call (the
second call is a cache hit), and the second call leaves the extractor
state untouched — in particular it invokes neither remote inference nor
pattern matching and performs no flush. -/
theorem claim_C7 (st : BrandState) (hak : Bool)
    (orc1 orc2 : String → Option String) (d1 d2 : String)
    (h1 : d1 ≠ "") (h2 : d2 ≠ "")
    (hnorm : normalizeDesc d1 = normalizeDesc d2) :
    (extract_brand (extract_brand st hak orc1 d1).2 hak orc2 d2).1 =
        (extract_brand st hak orc1 d1).1
    ∧ (extract_brand (extract_brand st hak orc1 d1).2 hak orc2 d2).2 =
        (extract_brand st hak orc1 d1).2
    ∧ lookupS (extract_brand st hak orc1 d1).2.cache (normalizeDesc d2) =
        some (extract_brand st hak orc1 d1).1 := by
  have key2 : lookupS (extract_brand st hak orc1 d1).2.cache (normalizeDesc d2) =
      some (extract_brand st hak orc1 d1).1 := by
    rw [← hnorm]
    exact extract_brand_caches st hak orc1 d1 h1
  refine ⟨?_, ?_, key2⟩ <;>
    (conv_lhs => rw [extract_brand.eq_def]) <;>
    · rw [if_neg (by simp [h2])]
      simp only [key2]

/-- Witness for C7 (amended): resolving `"FENDER STRATOCASTER"` twice
from an empty cache returns the same brand and an unchanged state the
second time, with the key cached after the first call. -/
theorem claim_C7_witness :
    (extract_brand (extract_brand emptyBrand false noOracle
        "FENDER STRATOCASTER").2 false noOracle "FENDER STRATOCASTER").1 =
      (extract_brand emptyBrand false noOracle "FENDER STRATOCASTER").1
    ∧ (extract_brand (extract_brand emptyBrand false noOracle
        "FENDER STRATOCASTER").2 false noOracle "FENDER STRATOCASTER").2 =
      (extract_brand emptyBrand false noOracle "FENDER STRATOCASTER").2
    ∧ lookupS (extract_brand emptyBrand false noOracle
        "FENDER STRATOCASTER").2.cache (normalizeDesc "FENDER STRATOCASTER") =
      some (extract_brand emptyBrand false noOracle "FENDER STRATOCASTER").1 :=
  claim_C7 emptyBrand false noOracle noOracle "FENDER STRATOCASTER"
    "FENDER STRATOCASTER" (by decide) (by decide) rfl

/-- C6 counterexample: the color extractor does not perform whole-word
matching.  In `"NAVY,"` the synonym `NAVY` occurs as a whole word (as
witnessed by the word-boundary matcher this very program uses for
brands), it is the only synonym occurring in the description at all, so
whole-word matching would return its canonical color `"BLUE"` — yet
`get_color` returns the no-match default `"Other"`, because its
space-padded substring test fails on the trailing comma. -/
theorem claim_C6_counterexample :
    wwSearch "NAVY" "NAVY," = true
    ∧ color_map.all (fun p => p.1 == "NAVY" || !wwSearch p.1 "NAVY,") = true
    ∧ get_color "NAVY," = "Other" := by
  decide

/-- C6 (amended): the color extractor performs case-insensitive
space-delimited token matching (a synonym is found only when bounded by
spaces or the padded string ends): the result depends only on the
upper-cased description; a description in which no synonym occurs
space-delimited yields the default `"Other"`; and for a description
containing both `"CREAM"` and `"NAVY"` (and none of the 16 synonyms
listed before `CREAM`), the earlier table entry wins: the result is
`CREAM`'s canonical color `"WHITE"`, not `NAVY`'s `"BLUE"`. -/
theorem claim_C6 :
    (∀ d1 d2 : String, upperList d1.data = upperList d2.data →
      get_color d1 = get_color d2)
    ∧ (∀ d : String, (∀ p ∈ color_map, spaceDelimMatch p.1 d = false) →
      get_color d = "Other")
    ∧ (∀ d : String, spaceDelimMatch "CREAM" d = true →
      spaceDelimMatch "NAVY" d = true →
      (∀ p ∈ color_map.take 16, spaceDelimMatch p.1 d = false) →
      get_color d = "WHITE") := by
  refine ⟨fun d1 d2 h => ?_, fun d hnone => ?_, fun d hcream hnavy hfirst => ?_⟩
  · simp only [get_color, spaceDelimMatch, h]
  · rw [get_color, List.find?_eq_none.mpr (fun p hp => by simp [hnone p hp])]
  · have hBLACK : spaceDelimMatch "BLACK" d = false := hfirst ("BLACK", "BLACK") (by decide)
    have hWHITE : spaceDelimMatch "WHITE" d = false := hfirst ("WHITE", "WHITE") (by decide)
    have hRED : spaceDelimMatch "RED" d = false := hfirst ("RED", "RED") (by decide)
    have hBLUE : spaceDelimMatch "BLUE" d = false := hfirst ("BLUE", "BLUE") (by decide)
    have hGREEN : spaceDelimMatch "GREEN" d = false := hfirst ("GREEN", "GREEN") (by decide)
    have hYELLOW : spaceDelimMatch "YELLOW" d = false := hfirst ("YELLOW", "YELLOW") (by decide)
    have hORANGE : spaceDelimMatch "ORANGE" d = false := hfirst ("ORANGE", "ORANGE") (by decide)
    have hPURPLE : spaceDelimMatch "PURPLE" d = false := hfirst ("PURPLE", "PURPLE") (by decide)
    have hBROWN : spaceDelimMatch "BROWN" d = false := hfirst ("BROWN", "BROWN") (by decide)
    have hGRAY : spaceDelimMatch "GRAY" d = false := hfirst ("GRAY", "GRAY") (by decide)
    have hGREY : spaceDelimMatch "GREY" d = false := hfirst ("GREY", "GRAY") (by decide)
    have hPINK : spaceDelimMatch "PINK" d = false := hfirst ("PINK", "PINK") (by decide)
    have hSILVER : spaceDelimMatch "SILVER" d = false := hfirst ("SILVER", "SILVER") (by decide)
    have hGOLD : spaceDelimMatch "GOLD" d = false := hfirst ("GOLD", "GOLD") (by decide)
    have hTAN : spaceDelimMatch "TAN" d = false := hfirst ("TAN", "TAN") (by decide)
    have hBEIGE : spaceDelimMatch "BEIGE" d = false := hfirst ("BEIGE", "TAN") (by decide)
    simp [get_color, color_map, List.find?, hBLACK, hWHITE, hRED, hBLUE,
      hGREEN, hYELLOW, hORANGE, hPURPLE, hBROWN, hGRAY, hGREY, hPINK,
      hSILVER, hGOLD, hTAN, hBEIGE, hcream]

/-- Witness for C6 (amended): `"CREAM NAVY GUITAR"` contains both
synonyms and none of the earlier table entries, and resolves to
`"WHITE"`. -/
theorem claim_C6_witness : get_color "CREAM NAVY GUITAR" = "WHITE" :=
  claim_C6.2.2 "CREAM NAVY GUITAR" (by decide) (by decide) (by decide)

/-- C5 counterexample: an unopenable serials CSV does not abort the
run.  With the serials file contents `none` (the file cannot be
opened), the conversion still returns successfully: the index degrades
to empty, the sample row is filtered out as a join miss, and the result
is an `ok` document with zero transactions — not an error. -/
theorem claim_C5_counterexample :
    convert_aimsi_to_xml sampleCfg sampleNow "" false noOracle emptyBrand
        "purchases.csv" (some [sampleRow]) none "Emp" =
      .ok ⟨"LIC123", [], 0, 1, 0, emptyBrand⟩ := by
  rfl

/-- C5 (amended): only the purchases CSV is load-bearing for run
survival: an unopenable purchases file aborts the conversion with an
error naming that file, while an unopenable serials file degrades the
index to empty (`load_serials_data none = []`) and the run still
returns a document. -/
theorem claim_C5 (cfg : Config) (now : Int) (nowIso : String) (hak : Bool)
    (orc : String → Option String) (bs : BrandState) (pname : String)
    (serialsFile : Option (List (List String))) (rows : List (List String))
    (emp : String) :
    convert_aimsi_to_xml cfg now nowIso hak orc bs pname none serialsFile emp =
        .error ("No such file or directory: " ++ pname)
    ∧ load_serials_data none = []
    ∧ ∃ r, convert_aimsi_to_xml cfg now nowIso hak orc bs pname (some rows)
        none emp = .ok r :=
  ⟨rfl, rfl, ⟨_, rfl⟩⟩

end Capps

example : Capps.parse_aimsi "11/10/2025 11:50:05 AM" =
    some ⟨2025, 11, 10, 11, 50, 5⟩ := by decide

example : Capps.isoFormat ⟨2025, 11, 10, 11, 50, 5⟩ = "2025-11-10T11:50:05" := by decide

example : Capps.daysFromCivil 1970 1 1 = 0 := by decide

example : Capps.parseAmount "150.00" = some ⟨15000, 100⟩ := by decide

example : Capps.parseAmount "1234.56" = some ⟨123456, 100⟩ := by decide

example : Capps.PyNum.ltB ⟨5000, 100⟩ ⟨100, 1⟩ = true := by decide

example : Capps.parseAmount "" = none := by decide

example : Capps.extract_brand_with_patterns "FENDER STRATOCASTER" = "FENDER" := by decide

example : Capps.extract_brand_with_patterns "Used Zzyx Deluxe Widget" = "ZZYX" := by decide

example :
    Capps.extract_brand ⟨[], 0, 0, 0⟩ false (fun _ => none) "FENDER STRATOCASTER" =
      ("FENDER", ⟨[("FENDER STRATOCASTER", "FENDER")], 1, 0, 1⟩) := by decide
